import Mathlib

/-!
Verification of the Rock-Paper-Scissors-Plus referee.

Shallow embedding of the repository's Python sources:
  - `state.py`: the `GameState` dataclass and `initialize_game_state`.
  - `tools.py`: `validate_move`, `resolve_round`, `update_game_state`.
  - `agent.py`: `GameRefereeAgent.process_turn` and its helpers.

Python dictionaries with the fixed key sets {"user", "bot"} (`score`,
`bomb_used`) are embedded as pairs of fields.  Python `None` becomes
`Option.none`; a `KeyError` that could escape a function is embedded as an
`Option`-valued result.  The bot's `random.choice` draw is passed to
`process_turn` as an explicit argument.
-/

namespace RPS

/-- One record of `GameState.history`: the dict
`{"round", "user_move", "bot_move", "winner", "reason"}` appended by
`update_game_state` (tools.py lines 165-171). -/
structure HistoryEntry where
  round : Nat
  user_move : String
  bot_move : String
  winner : String
  reason : String
deriving DecidableEq

/-- The `GameState` dataclass of state.py (lines 12-32).  The dicts
`score` and `bomb_used` (keys "user" and "bot") are split into two fields
each. -/
structure GameState where
  round : Nat
  max_rounds : Nat
  score_user : Nat
  score_bot : Nat
  bomb_used_user : Bool
  bomb_used_bot : Bool
  history : List HistoryEntry
  game_over : Bool
deriving DecidableEq

/-- `initialize_game_state` of state.py (lines 35-42): the dataclass
defaults round=1, max_rounds=3, scores 0, bombs unused, empty history,
game_over false. -/
def initialize_game_state : GameState :=
  { round := 1
    max_rounds := 3
    score_user := 0
    score_bot := 0
    bomb_used_user := false
    bomb_used_bot := false
    history := []
    game_over := false }

/-- The result dict of `validate_move` (tools.py lines 30-34). -/
structure ValidationResult where
  valid : Bool
  normalized_move : Option String
  error : Option String
deriving DecidableEq

/-- The result dict of `resolve_round` (tools.py lines 75-78). -/
structure Outcome where
  winner : String
  reason : String
deriving DecidableEq

/-- `VALID_MOVES` of tools.py (line 16).  The Python value is a set; only
membership tests are performed on it, so a list embeds it. -/
def VALID_MOVES : List String := ["rock", "paper", "scissors", "bomb"]

/-- The error message of tools.py line 44 (an f-string naming the raw
input). -/
def invalid_move_error (move : String) : String :=
  "Invalid move '" ++ move ++ "'. Valid moves: rock, paper, scissors, bomb"

/-- The error message of tools.py line 52. -/
def bomb_used_error : String :=
  "You have already used your bomb! Choose: rock, paper, or scissors"

/-- Python `str.isspace` on the ASCII range: the characters `str.strip`
removes (the embedding omits the non-ASCII Unicode whitespace Python
would also strip). -/
def py_is_space (c : Char) : Bool :=
  c = ' ' || c = '\t' || c = '\n' || c = '\x0b' || c = '\x0c' || c = '\r'

/-- Python `str.strip()` (tools.py line 37): drop surrounding
whitespace. -/
def py_strip (s : String) : String :=
  String.mk (((s.data.dropWhile py_is_space).reverse.dropWhile py_is_space).reverse)

/-- Python `str.lower()` (tools.py line 37) on the ASCII range. -/
def py_lower (s : String) : String :=
  String.mk (s.data.map Char.toLower)

/-- `validate_move` of tools.py (lines 19-60). -/
def validate_move (move : String) (game_state : GameState) : ValidationResult :=
  let normalized := py_lower (py_strip move)
  if normalized ∉ VALID_MOVES then
    { valid := false, normalized_move := none, error := some (invalid_move_error move) }
  else if normalized = "bomb" ∧ game_state.bomb_used_user = true then
    { valid := false, normalized_move := none, error := some bomb_used_error }
  else
    { valid := true, normalized_move := some normalized, error := none }

/-- Python `str.capitalize`: upper-case the first character, lower-case the
rest (used by the f-strings of tools.py lines 116 and 121). -/
def pyCapitalize (s : String) : String :=
  match s.data with
  | [] => ""
  | c :: cs => String.mk (c.toUpper :: cs.map Char.toLower)

/-- The `win_conditions` dict of tools.py (lines 107-111); `none` embeds a
key that is absent (looking it up raises `KeyError`). -/
def win_conditions : String → Option String
  | "rock" => some "scissors"
  | "scissors" => some "paper"
  | "paper" => some "rock"
  | _ => none

/-- `resolve_round` of tools.py (lines 63-122).  `none` embeds the
`KeyError` raised by `win_conditions[user_move]` when `user_move` is not a
key (unreachable for validated moves). -/
def resolve_round (user_move : String) (bot_move : String) : Option Outcome :=
  if user_move = "bomb" ∧ bot_move = "bomb" then
    some { winner := "draw", reason := "Both players used bomb - it's a draw!" }
  else if user_move = "bomb" then
    some { winner := "user", reason := "Bomb beats everything!" }
  else if bot_move = "bomb" then
    some { winner := "bot", reason := "Bot's bomb beats everything!" }
  else if user_move = bot_move then
    some { winner := "draw", reason := "Both played " ++ user_move }
  else
    match win_conditions user_move with
    | none => none
    | some w =>
      if w = bot_move then
        some { winner := "user", reason := pyCapitalize user_move ++ " beats " ++ bot_move }
      else
        some { winner := "bot", reason := pyCapitalize bot_move ++ " beats " ++ user_move }

/-- The history record built by `update_game_state` (tools.py lines
165-171): `user_move` is replaced by the literal "INVALID" when it is
`None`. -/
def history_record (r : Nat) (user_move : Option String) (bot_move : String)
    (round_result : Outcome) : HistoryEntry :=
  { round := r
    user_move := match user_move with | some m => m | none => "INVALID"
    bot_move := bot_move
    winner := round_result.winner
    reason := round_result.reason }

/-- Tools.py lines 151-156: increment the winner's score (the draw branch
changes nothing). -/
def step_score (round_result : Outcome) (s : GameState) : GameState :=
  if round_result.winner = "user" then { s with score_user := s.score_user + 1 }
  else if round_result.winner = "bot" then { s with score_bot := s.score_bot + 1 }
  else s

/-- Tools.py lines 159-160: mark the user's bomb as used. -/
def step_bomb_user (user_move : Option String) (s : GameState) : GameState :=
  if user_move = some "bomb" then { s with bomb_used_user := true } else s

/-- Tools.py lines 161-162: mark the bot's bomb as used. -/
def step_bomb_bot (bot_move : String) (s : GameState) : GameState :=
  if bot_move = "bomb" then { s with bomb_used_bot := true } else s

/-- Tools.py lines 165-171: append the round's record to `history`. -/
def step_history (user_move : Option String) (bot_move : String)
    (round_result : Outcome) (s : GameState) : GameState :=
  { s with history := s.history ++ [history_record s.round user_move bot_move round_result] }

/-- Tools.py line 174: increment the round counter. -/
def step_round (s : GameState) : GameState :=
  { s with round := s.round + 1 }

/-- Tools.py lines 177-178: set `game_over` when the new round exceeds
`max_rounds` (it is never cleared). -/
def step_game_over (s : GameState) : GameState :=
  if s.round > s.max_rounds then { s with game_over := true } else s

/-- `update_game_state` of tools.py (lines 125-180): a deep copy of the
input (value copy here) run through the body's statements in source
order. -/
def update_game_state (game_state : GameState) (user_move : Option String)
    (bot_move : String) (round_result : Outcome) : GameState :=
  step_game_over (step_round (step_history user_move bot_move round_result
    (step_bomb_bot bot_move (step_bomb_user user_move (step_score round_result game_state)))))

/-! Heap model of `update_game_state`, for its frame contract.  Python
`GameState` objects live on a heap of addresses; `copy.deepcopy` (tools.py
line 149) allocates a fresh address holding an equal value that shares
nothing with the input, and every subsequent assignment of the body writes
through that fresh address only. -/

/-- A heap of `GameState` objects: `mem` maps an address to the object
stored there, `next` is the next fresh address. -/
structure PyHeap where
  mem : Nat → Option GameState
  next : Nat

/-- Overwrite the object at address `a` with `f` of its current value. -/
def heap_write (h : PyHeap) (a : Nat) (f : GameState → GameState) : PyHeap :=
  { mem := fun q => if q = a then (h.mem q).map f else h.mem q, next := h.next }

/-- `update_game_state` acting on the heap: read the argument at address
`p` (`none` embeds a dangling reference), deep-copy it to the fresh
address, then run the body's statements in source order as writes through
the fresh address.  Returns the new heap and the returned object's
address. -/
def update_game_state_heap (h : PyHeap) (p : Nat) (user_move : Option String)
    (bot_move : String) (round_result : Outcome) : Option (PyHeap × Nat) :=
  match h.mem p with
  | none => none
  | some gs =>
    let a := h.next
    let h0 : PyHeap := { mem := fun q => if q = a then some gs else h.mem q, next := h.next + 1 }
    let h6 :=
      heap_write (heap_write (heap_write (heap_write (heap_write (heap_write
        h0 a (step_score round_result)) a (step_bomb_user user_move)) a
        (step_bomb_bot bot_move)) a (step_history user_move bot_move round_result)) a
        step_round) a step_game_over
    some (h6, a)

/-! The referee agent of agent.py.  `GameRefereeAgent` owns `game_state`
and `game_started`; `random.choice` inside `generate_bot_move` is the one
non-deterministic point, so the drawn move is an explicit argument of
`process_turn`. -/

/-- The mutable fields of `GameRefereeAgent` (agent.py lines 24-27). -/
structure AgentState where
  game_state : GameState
  game_started : Bool
deriving DecidableEq

/-- `GameRefereeAgent.__init__` (agent.py lines 24-27). -/
def agent_init : AgentState :=
  { game_state := initialize_game_state, game_started := false }

/-- The welcome banner returned by `start_game` (agent.py lines 39-50),
after Python's `.strip()`. -/
def welcome_message : String :=
  "🎮 Welcome to Rock-Paper-Scissors-Plus!\n\n📜 Rules (Best of 3):\n   • Valid moves: rock, paper, scissors, bomb\n   • Bomb can be used once per game and beats all other moves\n   • Bomb vs Bomb = draw\n   • Invalid input wastes the round (bot wins by default)\n   • Game ends automatically after 3 rounds\n\nLet's begin! What's your move for Round 1?"

/-- `GameRefereeAgent.start_game` (agent.py lines 29-50). -/
def start_game (_a : AgentState) : AgentState × String :=
  ({ game_state := initialize_game_state, game_started := true }, welcome_message)

/-- The list `generate_bot_move` draws from (agent.py lines 62-70):
`list(VALID_MOVES)` with "bomb" removed when the bot's bomb is spent (the
Python set's iteration order is arbitrary; only membership matters). -/
def generate_bot_move_options (gs : GameState) : List String :=
  if gs.bomb_used_bot = true then ["rock", "paper", "scissors"]
  else ["rock", "paper", "scissors", "bomb"]

/-- Agent.py line 90. -/
def not_started_message : String := "Game not started. Please start a new game first."

/-- Agent.py line 94. -/
def game_over_message : String := "🚫 The game is already over. Please start a new game."

/-- The outcome the agent synthesizes for invalid input (agent.py lines
114-117) without invoking `resolve_round`. -/
def invalid_input_outcome : Outcome :=
  { winner := "bot", reason := "Invalid input - bot wins by default" }

/-- Python rendering of an optional string in an f-string (`None` prints
as "None"; unreachable on the live paths). -/
def py_display (o : Option String) : String :=
  match o with | some s => s | none => "None"

/-- `GameRefereeAgent._format_final_result` (agent.py lines 194-220). -/
def format_final_result (gs : GameState) : String :=
  let user_score := gs.score_user
  let bot_score := gs.score_bot
  let sep := String.mk (List.replicate 50 '=')
  let ls := ["\n" ++ sep, "🎮 GAME OVER - Final Results", sep,
    "Final Score: You " ++ toString user_score ++ " - " ++ toString bot_score ++ " Bot"]
  let ls :=
    if user_score > bot_score then ls ++ ["\n🎉 YOU WIN THE GAME! 🎉"]
    else if bot_score > user_score then ls ++ ["\n🤖 BOT WINS THE GAME! 🤖"]
    else ls ++ ["\n🤝 IT'S A DRAW! 🤝"]
  let ls := ls ++ ["\nThanks for playing!"]
  String.intercalate "\n" ls

/-- `GameRefereeAgent._format_round_response` (agent.py lines 141-192);
`new_gs` is `self.game_state` after the update. -/
def format_round_response (new_gs : GameState) (round_num : Nat)
    (user_move : Option String) (bot_move : String) (round_result : Outcome)
    (validation_result : ValidationResult) : String :=
  let ls := ["\n🎯 Round " ++ toString round_num ++ " Results:"]
  let ls :=
    if validation_result.valid = false then
      ls ++ ["   ⚠️  " ++ py_display validation_result.error, "   You: INVALID INPUT"]
    else
      ls ++ ["   You: " ++ py_display user_move ++ " " ++
        (if user_move = some "bomb" then "💣" else "")]
  let ls := ls ++ ["   Bot: " ++ bot_move ++ " " ++ (if bot_move = "bomb" then "💣" else "")]
  let ls := ls ++ ["   Result: " ++ round_result.reason]
  let ls :=
    if round_result.winner = "user" then ls ++ ["   🏆 You win this round!"]
    else if round_result.winner = "bot" then ls ++ ["   🤖 Bot wins this round!"]
    else ls ++ ["   🤝 Draw!"]
  let ls := ls ++ ["\n📊 Score: You " ++ toString new_gs.score_user ++ " - " ++
    toString new_gs.score_bot ++ " Bot"]
  let ls :=
    if new_gs.game_over = true then ls ++ [format_final_result new_gs]
    else ls ++ ["\nWhat's your move for Round " ++ toString new_gs.round ++ "?"]
  String.intercalate "\n" ls

/-- `GameRefereeAgent.process_turn` (agent.py lines 72-139).  `bot_move`
is the move `generate_bot_move` drew (a member of
`generate_bot_move_options`); the result is `none` only if a `KeyError`
escaped `resolve_round` (unreachable, since the move it receives was
validated). -/
def process_turn (a : AgentState) (user_input : String) (bot_move : String) :
    Option (AgentState × String) :=
  if a.game_started = false then some (a, not_started_message)
  else if a.game_state.game_over = true then some (a, game_over_message)
  else
    let current_round := a.game_state.round
    let validation_result := validate_move user_input a.game_state
    let user_move : Option String :=
      if validation_result.valid = false then none else validation_result.normalized_move
    let round_result_opt : Option Outcome :=
      match user_move with
      | none => some invalid_input_outcome
      | some um => resolve_round um bot_move
    match round_result_opt with
    | none => none
    | some round_result =>
      let new_state := update_game_state a.game_state user_move bot_move round_result
      let response := format_round_response new_state current_round user_move bot_move
        round_result validation_result
      some ({ game_state := new_state, game_started := a.game_started }, response)

/-- One `update_game_state` call's arguments, for iterating the update
(the spec's `apply` called N times). -/
structure TurnInput where
  user_move : Option String
  bot_move : String
  outcome : Outcome

/-- Iterate `update_game_state` over a list of argument triples. -/
def apply_turns (gs : GameState) (l : List TurnInput) : GameState :=
  l.foldl (fun s t => update_game_state s t.user_move t.bot_move t.outcome) gs

/-- The round winner as claim C2 words the precedence: both bombs draw,
then a lone bomb wins for its side, then equal non-bomb moves draw, then
the cyclic beats-relation decides. -/
def claimed_winner (user_move : String) (bot_move : String) : String :=
  if user_move = "bomb" ∧ bot_move = "bomb" then "draw"
  else if user_move = "bomb" then "user"
  else if bot_move = "bomb" then "bot"
  else if user_move = bot_move then "draw"
  else if (user_move = "rock" ∧ bot_move = "scissors") ∨
          (user_move = "scissors" ∧ bot_move = "paper") ∨
          (user_move = "paper" ∧ bot_move = "rock") then "user"
  else "bot"

/-- Sample state with both bombs already spent (for witnesses). -/
def both_bombs_used_state : GameState :=
  { initialize_game_state with bomb_used_user := true, bomb_used_bot := true }

/-- Sample state whose game is already over while only round 1 is about
to be played (the dataclass allows it; the orchestrator never reaches
`update_game_state` with it, but the claims quantify over all states). -/
def finished_round_one_state : GameState :=
  { initialize_game_state with game_over := true }

/-- Sample drawn outcome (for witnesses). -/
def sample_draw_outcome : Outcome := { winner := "draw", reason := "r" }

/-! Helper lemmas. -/

lemma update_game_state_eq (gs : GameState) (um : Option String) (bm : String)
    (rr : Outcome) :
    update_game_state gs um bm rr =
      { round := gs.round + 1
        max_rounds := gs.max_rounds
        score_user := if rr.winner = "user" then gs.score_user + 1 else gs.score_user
        score_bot := if rr.winner = "user" then gs.score_bot
          else if rr.winner = "bot" then gs.score_bot + 1 else gs.score_bot
        bomb_used_user := if um = some "bomb" then true else gs.bomb_used_user
        bomb_used_bot := if bm = "bomb" then true else gs.bomb_used_bot
        history := gs.history ++ [history_record gs.round um bm rr]
        game_over := if gs.round + 1 > gs.max_rounds then true else gs.game_over } := by
  by_cases h1 : rr.winner = "user" <;> by_cases h2 : rr.winner = "bot" <;>
    by_cases h3 : um = some "bomb" <;> by_cases h4 : bm = "bomb" <;>
      by_cases h5 : gs.round + 1 > gs.max_rounds <;>
        simp [update_game_state, step_score, step_bomb_user, step_bomb_bot,
          step_history, step_round, step_game_over, h1, h2, h3, h4, h5]

lemma ugs_round (gs : GameState) (um : Option String) (bm : String) (rr : Outcome) :
    (update_game_state gs um bm rr).round = gs.round + 1 := by
  rw [update_game_state_eq]

lemma ugs_max_rounds (gs : GameState) (um : Option String) (bm : String) (rr : Outcome) :
    (update_game_state gs um bm rr).max_rounds = gs.max_rounds := by
  rw [update_game_state_eq]

lemma ugs_history (gs : GameState) (um : Option String) (bm : String) (rr : Outcome) :
    (update_game_state gs um bm rr).history =
      gs.history ++ [history_record gs.round um bm rr] := by
  rw [update_game_state_eq]

lemma ugs_game_over (gs : GameState) (um : Option String) (bm : String) (rr : Outcome) :
    (update_game_state gs um bm rr).game_over =
      (if gs.round + 1 > gs.max_rounds then true else gs.game_over) := by
  rw [update_game_state_eq]

lemma ugs_bomb_user (gs : GameState) (um : Option String) (bm : String) (rr : Outcome) :
    (update_game_state gs um bm rr).bomb_used_user =
      (if um = some "bomb" then true else gs.bomb_used_user) := by
  rw [update_game_state_eq]

lemma ugs_bomb_bot (gs : GameState) (um : Option String) (bm : String) (rr : Outcome) :
    (update_game_state gs um bm rr).bomb_used_bot =
      (if bm = "bomb" then true else gs.bomb_used_bot) := by
  rw [update_game_state_eq]

lemma ugs_score_user (gs : GameState) (um : Option String) (bm : String) (rr : Outcome) :
    (update_game_state gs um bm rr).score_user =
      (if rr.winner = "user" then gs.score_user + 1 else gs.score_user) := by
  rw [update_game_state_eq]

lemma ugs_score_bot (gs : GameState) (um : Option String) (bm : String) (rr : Outcome) :
    (update_game_state gs um bm rr).score_bot =
      (if rr.winner = "user" then gs.score_bot
        else if rr.winner = "bot" then gs.score_bot + 1 else gs.score_bot) := by
  rw [update_game_state_eq]

lemma apply_turns_nil (gs : GameState) : apply_turns gs [] = gs := rfl

lemma apply_turns_cons (gs : GameState) (t : TurnInput) (l : List TurnInput) :
    apply_turns gs (t :: l) =
      apply_turns (update_game_state gs t.user_move t.bot_move t.outcome) l := rfl

lemma apply_turns_round (l : List TurnInput) :
    ∀ gs : GameState, (apply_turns gs l).round = gs.round + l.length := by
  induction l with
  | nil => intro gs; simp [apply_turns_nil]
  | cons t l ih =>
    intro gs
    rw [apply_turns_cons, ih, ugs_round]
    simp [Nat.add_assoc, Nat.add_comm 1 l.length]

lemma apply_turns_max_rounds (l : List TurnInput) :
    ∀ gs : GameState, (apply_turns gs l).max_rounds = gs.max_rounds := by
  induction l with
  | nil => intro gs; simp [apply_turns_nil]
  | cons t l ih => intro gs; rw [apply_turns_cons, ih, ugs_max_rounds]

lemma apply_turns_history_length (l : List TurnInput) :
    ∀ gs : GameState, (apply_turns gs l).history.length = gs.history.length + l.length := by
  induction l with
  | nil => intro gs; simp [apply_turns_nil]
  | cons t l ih =>
    intro gs
    rw [apply_turns_cons, ih, ugs_history]
    simp [Nat.add_assoc, Nat.add_comm 1 l.length]

lemma apply_turns_game_over (l : List TurnInput) :
    ∀ gs : GameState, ((apply_turns gs l).game_over = true ↔
      (gs.game_over = true ∨ (1 ≤ l.length ∧ gs.max_rounds < gs.round + l.length))) := by
  induction l with
  | nil => intro gs; simp [apply_turns_nil]
  | cons t l ih =>
    intro gs
    rw [apply_turns_cons, ih, ugs_game_over, ugs_round, ugs_max_rounds]
    by_cases hgo : gs.game_over = true <;> simp [hgo] <;> omega

/-! The claims. -/

/-- C1: starting from `initialize_game_state` (round 1, both scores 0,
both bombs unused, empty history, game_over false), after N consecutive
`update_game_state` calls, each fed the previous result, with arbitrary
moves and outcomes, `history` has length N, `round` equals 1+N, and
`game_over` is true iff N ≥ max_rounds, the fixed constant 3. -/
theorem c1_fresh_apply_counts (l : List TurnInput) :
    (apply_turns initialize_game_state l).history.length = l.length
    ∧ (apply_turns initialize_game_state l).round = 1 + l.length
    ∧ ((apply_turns initialize_game_state l).game_over = true ↔ 3 ≤ l.length) := by
  refine ⟨?_, ?_, ?_⟩
  · rw [apply_turns_history_length]; simp [initialize_game_state]
  · rw [apply_turns_round]; simp [initialize_game_state]
  · rw [apply_turns_game_over]; simp [initialize_game_state]; omega

/-- C2: over the four valid moves, `resolve_round` returns the winner the
top-down precedence gives: both bombs a draw, a lone bomb wins for its
side, equal non-bomb moves a draw, otherwise the side whose move beats
the other's (rock over scissors, scissors over paper, paper over rock)
wins. -/
theorem c2_resolve_round_precedence (u b : String)
    (hu : u ∈ VALID_MOVES) (hb : b ∈ VALID_MOVES) :
    (resolve_round u b).map Outcome.winner = some (claimed_winner u b) := by
  fin_cases hu <;> fin_cases hb <;> rfl

theorem c2_resolve_round_precedence_witness :
    ("rock" ∈ VALID_MOVES ∧ "scissors" ∈ VALID_MOVES)
    ∧ (resolve_round "rock" "scissors").map Outcome.winner =
        some (claimed_winner "rock" "scissors") :=
  ⟨⟨by decide, by decide⟩, c2_resolve_round_precedence "rock" "scissors" (by decide) (by decide)⟩

/-- C3: a true `bomb_used` flag of the input state stays true in the
state `update_game_state` returns; the call sets the user flag when
`user_move` is "bomb" and the bot flag when `bot_move` is "bomb"; and
neither flag is ever set back to false (each output flag is the input
flag or-ed with this call's bomb usage). -/
theorem c3_bomb_flags_monotone (gs : GameState) (um : Option String) (bm : String)
    (rr : Outcome) :
    ((gs.bomb_used_user = true → (update_game_state gs um bm rr).bomb_used_user = true)
      ∧ (gs.bomb_used_bot = true → (update_game_state gs um bm rr).bomb_used_bot = true))
    ∧ ((um = some "bomb" → (update_game_state gs um bm rr).bomb_used_user = true)
      ∧ (bm = "bomb" → (update_game_state gs um bm rr).bomb_used_bot = true))
    ∧ ((update_game_state gs um bm rr).bomb_used_user =
        (if um = some "bomb" then true else gs.bomb_used_user)
      ∧ (update_game_state gs um bm rr).bomb_used_bot =
        (if bm = "bomb" then true else gs.bomb_used_bot)) := by
  refine ⟨⟨?_, ?_⟩, ⟨?_, ?_⟩, ugs_bomb_user gs um bm rr, ugs_bomb_bot gs um bm rr⟩
  · intro h; rw [ugs_bomb_user]; split <;> simp [h]
  · intro h; rw [ugs_bomb_bot]; split <;> simp [h]
  · intro h; rw [ugs_bomb_user]; simp [h]
  · intro h; rw [ugs_bomb_bot]; simp [h]

theorem c3_bomb_flags_monotone_witness :
    (update_game_state both_bombs_used_state none "rock" sample_draw_outcome).bomb_used_user = true
    ∧ (update_game_state both_bombs_used_state none "rock" sample_draw_outcome).bomb_used_bot = true
    ∧ (update_game_state initialize_game_state (some "bomb") "bomb"
        sample_draw_outcome).bomb_used_user = true
    ∧ (update_game_state initialize_game_state (some "bomb") "bomb"
        sample_draw_outcome).bomb_used_bot = true :=
  ⟨(c3_bomb_flags_monotone both_bombs_used_state none "rock" sample_draw_outcome).1.1 rfl,
   (c3_bomb_flags_monotone both_bombs_used_state none "rock" sample_draw_outcome).1.2 rfl,
   (c3_bomb_flags_monotone initialize_game_state (some "bomb") "bomb" sample_draw_outcome).2.1.1 rfl,
   (c3_bomb_flags_monotone initialize_game_state (some "bomb") "bomb" sample_draw_outcome).2.1.2 rfl⟩

/-- C7: `update_game_state` increments exactly the winner's score by one
(winner "user" and "bot" respectively), leaves both scores unchanged on
"draw", and never decreases either score. -/
theorem c7_score_updates (gs : GameState) (um : Option String) (bm : String)
    (rr : Outcome) :
    (rr.winner = "user" →
      (update_game_state gs um bm rr).score_user = gs.score_user + 1
      ∧ (update_game_state gs um bm rr).score_bot = gs.score_bot)
    ∧ (rr.winner = "bot" →
      (update_game_state gs um bm rr).score_bot = gs.score_bot + 1
      ∧ (update_game_state gs um bm rr).score_user = gs.score_user)
    ∧ (rr.winner = "draw" →
      (update_game_state gs um bm rr).score_user = gs.score_user
      ∧ (update_game_state gs um bm rr).score_bot = gs.score_bot)
    ∧ (gs.score_user ≤ (update_game_state gs um bm rr).score_user
      ∧ gs.score_bot ≤ (update_game_state gs um bm rr).score_bot) := by
  refine ⟨?_, ?_, ?_, ?_⟩
  · intro h; rw [ugs_score_user, ugs_score_bot]; simp [h]
  · intro h
    have hne : rr.winner ≠ "user" := by rw [h]; decide
    rw [ugs_score_user, ugs_score_bot]; simp [h, hne]
  · intro h
    have hne : rr.winner ≠ "user" := by rw [h]; decide
    have hne2 : rr.winner ≠ "bot" := by rw [h]; decide
    rw [ugs_score_user, ugs_score_bot]; simp [hne, hne2]
  · rw [ugs_score_user, ugs_score_bot]
    constructor
    · split <;> omega
    · split
      · omega
      · split <;> omega

theorem c7_score_updates_witness :
    ((update_game_state initialize_game_state (some "rock") "scissors"
        { winner := "user", reason := "r" }).score_user = 0 + 1)
    ∧ ((update_game_state initialize_game_state (some "rock") "paper"
        { winner := "bot", reason := "r" }).score_bot = 0 + 1)
    ∧ ((update_game_state initialize_game_state (some "rock") "rock"
        { winner := "draw", reason := "r" }).score_user = 0) :=
  ⟨((c7_score_updates initialize_game_state (some "rock") "scissors" _).1 rfl).1,
   ((c7_score_updates initialize_game_state (some "rock") "paper" _).2.1 rfl).1,
   ((c7_score_updates initialize_game_state (some "rock") "rock" _).2.2.1 rfl).1⟩

/-- C8 as stated is false: on an input state whose `game_over` is already
true while the post-increment round does not exceed `max_rounds` (round 1,
max_rounds 3), the returned state keeps `game_over = true` although its
round, 2, does not exceed 3 - so "game_over iff post-increment round
exceeds max_rounds" fails for that input. -/
theorem c8_game_over_counterexample :
    ¬ (((update_game_state finished_round_one_state none "rock"
          sample_draw_outcome).game_over = true) ↔
        ((update_game_state finished_round_one_state none "rock"
          sample_draw_outcome).round >
         (update_game_state finished_round_one_state none "rock"
          sample_draw_outcome).max_rounds)) := by
  decide

/-- C8 amended: the returned state's `game_over` is true iff the input
state's `game_over` was already true or the post-increment round exceeds
`max_rounds`; in particular, when the input's `game_over` is false the
returned `game_over` is true iff the returned round exceeds `max_rounds`,
and once `game_over` is true in the input no call returns it false. -/
theorem c8_game_over_amended (gs : GameState) (um : Option String) (bm : String)
    (rr : Outcome) :
    ((update_game_state gs um bm rr).game_over =
      (if gs.round + 1 > gs.max_rounds then true else gs.game_over))
    ∧ (gs.game_over = false →
      ((update_game_state gs um bm rr).game_over = true ↔
        (update_game_state gs um bm rr).round > (update_game_state gs um bm rr).max_rounds))
    ∧ (gs.game_over = true → (update_game_state gs um bm rr).game_over = true) := by
  refine ⟨ugs_game_over gs um bm rr, ?_, ?_⟩
  · intro h
    rw [ugs_game_over, ugs_round, ugs_max_rounds, h]
    split <;> simp_all
  · intro h
    rw [ugs_game_over, h]
    split <;> rfl

lemma error_messages_distinct (move : String) : invalid_move_error move ≠ bomb_used_error := by
  intro h
  have h2 : (invalid_move_error move).data.head? = bomb_used_error.data.head? := by rw [h]
  have h3 : (invalid_move_error move).data.head? = some 'I' := rfl
  have h4 : bomb_used_error.data.head? = some 'Y' := rfl
  rw [h3, h4] at h2
  exact absurd h2 (by decide)

/-- C6: `validate_move` accepts exactly the inputs whose trimmed,
lowercased form is one of the four moves and is not "bomb" with the
user's bomb already spent; acceptance returns that normalization with no
error, and each rejection returns `normalized_move = none` with a
non-null error - the out-of-set message naming the raw input, or the
distinct already-used-bomb message.  (`validate_move` takes the state by
value and returns only a result record, so it cannot modify the state.) -/
theorem c6_validate_move_spec (move : String) (gs : GameState) :
    ((validate_move move gs).valid = true ↔
      (py_lower (py_strip move) ∈ VALID_MOVES ∧
        ¬(py_lower (py_strip move) = "bomb" ∧ gs.bomb_used_user = true)))
    ∧ ((validate_move move gs).valid = true →
        validate_move move gs =
          { valid := true, normalized_move := some (py_lower (py_strip move)), error := none })
    ∧ (py_lower (py_strip move) ∉ VALID_MOVES →
        validate_move move gs =
          { valid := false, normalized_move := none, error := some (invalid_move_error move) })
    ∧ (py_lower (py_strip move) = "bomb" → gs.bomb_used_user = true →
        validate_move move gs =
          { valid := false, normalized_move := none, error := some bomb_used_error })
    ∧ invalid_move_error move ≠ bomb_used_error := by
  refine ⟨?_, ?_, ?_, ?_, error_messages_distinct move⟩
  · simp only [validate_move]
    split_ifs with hmem hbomb <;> simp_all
  · intro hv
    simp only [validate_move] at hv ⊢
    split_ifs at hv ⊢ <;> simp_all
  · intro hmem
    simp only [validate_move]
    split_ifs <;> simp_all
  · intro hb hused
    simp only [validate_move]
    split_ifs with hmem hbomb <;> simp_all [VALID_MOVES]

theorem c6_validate_move_spec_witness :
    (validate_move "  ROCK " initialize_game_state =
      { valid := true, normalized_move := some "rock", error := none })
    ∧ (validate_move "lizard" initialize_game_state =
      { valid := false, normalized_move := none, error := some (invalid_move_error "lizard") })
    ∧ (validate_move "bomb" both_bombs_used_state =
      { valid := false, normalized_move := none, error := some bomb_used_error }) :=
  ⟨(c6_validate_move_spec "  ROCK " initialize_game_state).2.1 rfl,
   (c6_validate_move_spec "lizard" initialize_game_state).2.2.1 (by decide),
   (c6_validate_move_spec "bomb" both_bombs_used_state).2.2.2.1 rfl rfl⟩

theorem c8_game_over_amended_witness :
    ((update_game_state initialize_game_state none "rock"
        sample_draw_outcome).game_over = true ↔
      (update_game_state initialize_game_state none "rock"
        sample_draw_outcome).round >
      (update_game_state initialize_game_state none "rock"
        sample_draw_outcome).max_rounds)
    ∧ (update_game_state finished_round_one_state none "rock"
        sample_draw_outcome).game_over = true :=
  ⟨(c8_game_over_amended initialize_game_state none "rock" sample_draw_outcome).2.1 rfl,
   (c8_game_over_amended finished_round_one_state none "rock" sample_draw_outcome).2.2 rfl⟩

/-- C4: `process_turn` called before the game was started, or on a state
whose `game_over` is true, returns the corresponding rejection message and
returns the agent state unchanged - score, round, bomb flags, history and
`game_over` are exactly the input's. -/
theorem c4_process_turn_guard_noop (a : AgentState) (input bm : String) :
    (a.game_started = false →
      process_turn a input bm = some (a, not_started_message))
    ∧ (a.game_started = true → a.game_state.game_over = true →
      process_turn a input bm = some (a, game_over_message)) := by
  constructor
  · intro h; simp [process_turn, h]
  · intro h1 h2; simp [process_turn, h1, h2]

theorem c4_process_turn_guard_noop_witness :
    (process_turn agent_init "rock" "rock" = some (agent_init, not_started_message))
    ∧ (process_turn { game_state := finished_round_one_state, game_started := true }
        "rock" "rock" =
       some ({ game_state := finished_round_one_state, game_started := true },
        game_over_message)) :=
  ⟨(c4_process_turn_guard_noop agent_init "rock" "rock").1 rfl,
   (c4_process_turn_guard_noop
      { game_state := finished_round_one_state, game_started := true }
      "rock" "rock").2 rfl rfl⟩

/-- C5: on a started, unfinished game, an input that fails validation is
not sent to `resolve_round`; the agent synthesizes the winner "bot"
outcome itself, so the new state has the bot's score incremented by one,
the round counter incremented by one, and exactly one history record
appended whose `round` is the pre-increment round number and whose
`user_move` is the literal "INVALID". -/
theorem c5_invalid_input_turn (a : AgentState) (input bm : String)
    (h1 : a.game_started = true) (h2 : a.game_state.game_over = false)
    (h3 : (validate_move input a.game_state).valid = false) :
    ((process_turn a input bm).map (fun p => p.1.game_state) =
      some (update_game_state a.game_state none bm invalid_input_outcome))
    ∧ ((update_game_state a.game_state none bm invalid_input_outcome).score_bot =
        a.game_state.score_bot + 1)
    ∧ ((update_game_state a.game_state none bm invalid_input_outcome).score_user =
        a.game_state.score_user)
    ∧ ((update_game_state a.game_state none bm invalid_input_outcome).round =
        a.game_state.round + 1)
    ∧ ((update_game_state a.game_state none bm invalid_input_outcome).history =
        a.game_state.history ++
          [{ round := a.game_state.round, user_move := "INVALID", bot_move := bm,
             winner := "bot", reason := "Invalid input - bot wins by default" }]) := by
  refine ⟨?_, ?_, ?_, ?_, ?_⟩
  · simp [process_turn, h1, h2, h3]
  · rw [ugs_score_bot]; simp [invalid_input_outcome]
  · rw [ugs_score_user]; simp [invalid_input_outcome]
  · rw [ugs_round]
  · rw [ugs_history]; rfl

theorem c5_invalid_input_turn_witness :
    ((validate_move "xyz" initialize_game_state).valid = false)
    ∧ ((process_turn { game_state := initialize_game_state, game_started := true }
        "xyz" "rock").map (fun p => p.1.game_state) =
       some (update_game_state initialize_game_state none "rock" invalid_input_outcome)) :=
  ⟨rfl, (c5_invalid_input_turn { game_state := initialize_game_state, game_started := true }
    "xyz" "rock" rfl rfl rfl).1⟩

/-- C10: when validation fails on a started, unfinished game, the
generated bot move is still applied; if that drawn move is "bomb" (only
generatable while the bot's bomb is unspent), the new state records
`bomb_used.bot = true` and the appended history record shows `bot_move`
"bomb" with winner "bot" and the synthesized invalid-input reason - the
bot spends its once-per-game bomb on a round the user forfeited. -/
theorem c10_bot_bomb_on_invalid (a : AgentState) (input : String)
    (h1 : a.game_started = true) (h2 : a.game_state.game_over = false)
    (h3 : (validate_move input a.game_state).valid = false)
    (_h4 : "bomb" ∈ generate_bot_move_options a.game_state) :
    ((process_turn a input "bomb").map (fun p => p.1.game_state.bomb_used_bot) =
      some true)
    ∧ ((process_turn a input "bomb").map (fun p => p.1.game_state.history) =
      some (a.game_state.history ++
        [{ round := a.game_state.round, user_move := "INVALID", bot_move := "bomb",
           winner := "bot", reason := "Invalid input - bot wins by default" }])) := by
  constructor
  · simp [process_turn, h1, h2, h3, ugs_bomb_bot]
  · simp [process_turn, h1, h2, h3, ugs_history]; rfl

theorem c10_bot_bomb_on_invalid_witness :
    ((validate_move "xyz" initialize_game_state).valid = false)
    ∧ ("bomb" ∈ generate_bot_move_options initialize_game_state)
    ∧ ((process_turn { game_state := initialize_game_state, game_started := true }
        "xyz" "bomb").map (fun p => p.1.game_state.bomb_used_bot) = some true) :=
  ⟨rfl, by decide,
   (c10_bot_bomb_on_invalid { game_state := initialize_game_state, game_started := true }
     "xyz" rfl rfl rfl (by decide)).1⟩

/-- C9: run on the heap, `update_game_state` returns a brand-new object at
the fresh address; every live address of the input heap - in particular
the argument's address `p` - still holds exactly the object it held
before the call, and the fresh address holds the value the pure
`update_game_state` computes from the input.  Every field of the input
state is thus the same after the call as before. -/
theorem c9_update_frame (h : PyHeap) (p : Nat) (um : Option String) (bm : String)
    (rr : Outcome) (gs : GameState) (hp : h.mem p = some gs) (hlt : p < h.next) :
    ((update_game_state_heap h p um bm rr).map (fun r => r.2) = some h.next)
    ∧ (∀ q, q ≠ h.next →
        (update_game_state_heap h p um bm rr).map (fun r => r.1.mem q) = some (h.mem q))
    ∧ ((update_game_state_heap h p um bm rr).map (fun r => r.1.mem p) = some (some gs))
    ∧ ((update_game_state_heap h p um bm rr).map (fun r => r.1.mem h.next) =
        some (some (update_game_state gs um bm rr))) := by
  have hne : p ≠ h.next := Nat.ne_of_lt hlt
  refine ⟨?_, ?_, ?_, ?_⟩
  · simp [update_game_state_heap, hp]
  · intro q hq
    simp [update_game_state_heap, hp, heap_write, hq]
  · simp [update_game_state_heap, hp, heap_write, hne]
  · simp [update_game_state_heap, hp, heap_write, update_game_state]

theorem c9_update_frame_witness :
    ((update_game_state_heap
        { mem := fun q => if q = 0 then some initialize_game_state else none, next := 1 }
        0 none "rock" sample_draw_outcome).map (fun r => r.1.mem 0) =
      some (some initialize_game_state))
    ∧ ((update_game_state_heap
        { mem := fun q => if q = 0 then some initialize_game_state else none, next := 1 }
        0 none "rock" sample_draw_outcome).map (fun r => r.1.mem 1) =
      some (some (update_game_state initialize_game_state none "rock" sample_draw_outcome))) :=
  ⟨(c9_update_frame
      { mem := fun q => if q = 0 then some initialize_game_state else none, next := 1 }
      0 none "rock" sample_draw_outcome initialize_game_state rfl (by decide)).2.2.1,
   (c9_update_frame
      { mem := fun q => if q = 0 then some initialize_game_state else none, next := 1 }
      0 none "rock" sample_draw_outcome initialize_game_state rfl (by decide)).2.2.2⟩

end RPS
